import Mathlib

/-!
Shallow embedding of nucypher/cli/actions/network.py.

Modelling conventions:
  * JSON values parsed by json.load are the inductive JValue.
  * The filesystem is a map from paths to FileState (absent, present but
    invalid JSON, or present and parsed to a JValue).
  * Python exceptions are Except errors; distinct exception classes are
    distinct constructors.
  * The hardcoded TEACHER_NODES table and Ursula.from_teacher_uri live in
    other modules, so they are parameters of the embedded functions.
  * Python lists are mutable references: aggregate_seednode_uris binds
    uris to the very list object passed as highest_priority when that list
    is truthy (non-empty), so every extend mutates the caller list. The
    embedding returns, next to the result list, the final contents of the
    caller list object (hpAfter), making the mutation observable.
  * The emitter is modelled by accumulating a list of structured messages.
-/

namespace NucypherNetwork

/-- JSON values as produced by json.load. -/
inductive JValue where
  | jnull
  | jbool (b : Bool)
  | jnum (n : Int)
  | jstr (s : String)
  | jarr (xs : List JValue)
  | jobj (kvs : List (String × JValue))
  deriving Repr

/-- State of the static-nodes file on disk: missing, unparseable, or parsed. -/
inductive FileState where
  | absent
  | invalidJson
  | parsed (v : JValue)
  deriving Repr

/-- Python exceptions that load_static_nodes and aggregation can raise:
the RuntimeError raised on JSONDecodeError, the AttributeError from calling
a missing method (items on a non-dict), and the TypeError from iterating a
non-iterable value. -/
inductive PyError where
  | invalidJson
  | attributeError
  | typeError
  deriving Repr, DecidableEq

/-- Python truthiness of a JSON-derived value. -/
def pyTruthy : JValue → Bool
  | .jnull => false
  | .jbool b => b
  | .jnum n => n != 0
  | .jstr s => s != ""
  | .jarr xs => !xs.isEmpty
  | .jobj kvs => !kvs.isEmpty

/-- Python iteration over a JSON-derived value, as used by list.extend:
lists yield elements, strings yield characters, dicts yield keys, anything
else raises TypeError. -/
def pyIter : JValue → Except PyError (List JValue)
  | .jarr xs => .ok xs
  | .jstr s => .ok (s.toList.map (fun c => .jstr (String.mk [c])))
  | .jobj kvs => .ok (kvs.map (fun kv => .jstr kv.1))
  | _ => .error .typeError

/-- dict.get on the parsed static-nodes mapping. -/
def dictGet (kvs : List (String × JValue)) (k : String) : Option JValue :=
  (kvs.find? (fun kv => kv.1 == k)).map Prod.snd

/-- Path os.path.join(DEFAULT_CONFIG_ROOT, static-nodes.json), kept abstract. -/
def defaultStaticNodesFilepath : String := "DEFAULT_CONFIG_ROOT/static-nodes.json"

/-- Resolution `if not filepath: filepath = default`; None and the empty
string are falsy. -/
def resolveFilepath : Option String → String
  | none => defaultStaticNodesFilepath
  | some p => if p = "" then defaultStaticNodesFilepath else p

/-- Embedding of load_static_nodes: read and parse the file, return the
pairs whose domain is in the requested set. FileNotFoundError yields an
empty dict; JSONDecodeError raises the invalid-JSON RuntimeError; calling
items on a parsed non-dict raises AttributeError. -/
def load_static_nodes (fs : String → FileState) (domains : List String)
    (filepath : Option String) : Except PyError (List (String × JValue)) :=
  match fs (resolveFilepath filepath) with
  | .absent => .ok []
  | .invalidJson => .error .invalidJson
  | .parsed (.jobj kvs) => .ok (kvs.filter (fun kv => domains.contains kv.1))
  | .parsed _ => .error .attributeError

/-- Step 2 of the per-domain loop: uris.extend(domain_static_nodes) when the
fetched value is truthy (dict.get returning None is falsy). -/
def extendStatic (sn : List (String × JValue)) (uris : List JValue)
    (domain : String) : Except PyError (List JValue) :=
  match dictGet sn domain with
  | some v =>
    if pyTruthy v then
      match pyIter v with
      | .ok xs => .ok (uris ++ xs)
      | .error e => .error e
    else .ok uris
  | none => .ok uris

/-- Step 3 of the per-domain loop: uris.extend(hardcoded_uris) when the
TEACHER_NODES entry is a non-empty tuple of URI strings. -/
def extendHardcoded (tt : String → Option (List String)) (uris : List JValue)
    (domain : String) : List JValue :=
  match tt domain with
  | some hs => if hs.isEmpty then uris else uris ++ hs.map JValue.jstr
  | none => uris

/-- Body of one iteration of the for-domain loop of aggregate_seednode_uris. -/
def aggStep (sn : List (String × JValue)) (tt : String → Option (List String))
    (uris : List JValue) (domain : String) : Except PyError (List JValue) :=
  match extendStatic sn uris domain with
  | .ok u => .ok (extendHardcoded tt u domain)
  | .error e => .error e

/-- The for-domain loop of aggregate_seednode_uris, iterating the domain set
in its (fixed, per set object) iteration order. -/
def aggLoop (sn : List (String × JValue)) (tt : String → Option (List String)) :
    List String → List JValue → Except PyError (List JValue)
  | [], uris => .ok uris
  | d :: ds, uris =>
    match aggStep sn tt uris d with
    | .ok uris2 => aggLoop sn tt ds uris2
    | .error e => .error e

/-- Contents of the list bound by `uris = highest_priority or list()`: the
caller list when truthy (non-empty), a fresh empty list otherwise. -/
def hpInit (hp : Option (List JValue)) : List JValue :=
  match hp with
  | some l => l
  | none => []

/-- Final contents of the caller list object after the call: a truthy
(non-empty) caller list was aliased by uris and mutated by every extend, so
it ends equal to the result; an empty caller list or None was replaced by a
fresh list and stays as it was. -/
def hpFinal (hp : Option (List JValue)) (uris : List JValue) :
    Option (List JValue) :=
  match hp with
  | some l => if l.isEmpty then some l else some uris
  | none => none

/-- Embedding of aggregate_seednode_uris. The domain set is represented by
the list of its elements in iteration order. The second component of a
successful result is the final contents of the caller list object passed as
highest_priority (see hpFinal). -/
def aggregate_seednode_uris (fs : String → FileState)
    (tt : String → Option (List String)) (domains : List String)
    (highest_priority : Option (List JValue)) :
    Except PyError (List JValue × Option (List JValue)) :=
  match load_static_nodes fs domains none with
  | .error e => .error e
  | .ok sn =>
    match aggLoop sn tt domains (hpInit highest_priority) with
    | .error e => .error e
    | .ok uris => .ok (uris, hpFinal highest_priority uris)

/-- Emitter messages, kept structured rather than as formatted strings. -/
inductive Msg where
  | connecting
  | noDomainPeers (domains : List String)
  | failedConnect (uri : JValue)
  | notStakingWarning (uri : JValue)
  | forceDetectWarning (host : String)
  deriving Repr

/-- Outcomes of Ursula.from_teacher_uri that load_seednodes distinguishes:
NodeSeemsToBeDown, Teacher.NotStaking, and any other exception (carrying an
identifying payload). -/
inductive CErr where
  | down
  | notStaking
  | other (e : Nat)
  deriving Repr, DecidableEq

/-- Exceptions propagating out of load_seednodes: aggregation errors and
unhandled construction errors. -/
inductive LoadErr where
  | pyErr (e : PyError)
  | construct (e : Nat)
  deriving Repr, DecidableEq

/-- Construction loop of load_seednodes: try each URI in order, append
successes, emit a notice and continue on NodeSeemsToBeDown or NotStaking,
propagate anything else. -/
def buildTeachers {Node : Type} (construct : JValue → Except CErr Node) :
    List JValue → Except Nat (List Node × List Msg)
  | [] => .ok ([], [])
  | u :: rest =>
    match construct u with
    | .error (.other e) => .error e
    | .error .down =>
      match buildTeachers construct rest with
      | .ok (ns, ms) => .ok (ns, .failedConnect u :: ms)
      | .error e2 => .error e2
    | .error .notStaking =>
      match buildTeachers construct rest with
      | .ok (ns, ms) => .ok (ns, .notStakingWarning u :: ms)
      | .error e2 => .error e2
    | .ok n =>
      match buildTeachers construct rest with
      | .ok (ns, ms) => .ok (n :: ns, ms)
      | .error e2 => .error e2

/-- Embedding of load_seednodes: emit the heads-up, aggregate the URIs,
return early with NO_DOMAIN_PEERS when none, otherwise construct teachers
URI by URI and emit NO_DOMAIN_PEERS when all attempts were skipped. -/
def load_seednodes {Node : Type} (fs : String → FileState)
    (tt : String → Option (List String)) (network_domains : List String)
    (teacher_uris : Option (List JValue))
    (construct : JValue → Except CErr Node) :
    Except LoadErr (List Node × List Msg) :=
  match aggregate_seednode_uris fs tt network_domains teacher_uris with
  | .error e => .error (.pyErr e)
  | .ok (uris, _) =>
    if uris.isEmpty then
      .ok ([], [.connecting, .noDomainPeers network_domains])
    else
      match buildTeachers construct uris with
      | .error e => .error (.construct e)
      | .ok (nodes, notices) =>
        .ok (nodes, .connecting :: notices ++
          (if nodes.isEmpty then [.noDomainPeers network_domains] else []))

/-- Check whether a construction outcome is one load_seednodes does not
handle (neither success nor one of the two skip exceptions). -/
def isFatalConstruct {Node : Type} (r : Except CErr Node) : Bool :=
  match r with
  | .error (.other _) => true
  | _ => false

/-- Successfully constructed teachers, in the order of their URIs. -/
def constructSuccesses {Node : Type} (construct : JValue → Except CErr Node)
    (uris : List JValue) : List Node :=
  uris.filterMap (fun u => (construct u).toOption)

/-- Per-URI skip notices, in the order of their URIs. -/
def skipNotices {Node : Type} (construct : JValue → Except CErr Node)
    (uris : List JValue) : List Msg :=
  uris.filterMap (fun u =>
    match construct u with
    | .error .down => some (.failedConnect u)
    | .error .notStaking => some (.notStakingWarning u)
    | _ => none)

/-- Outcome of requests.get on the address-echo service: an HTTP response
with status and body text, or a network-level requests exception. -/
inductive HttpOutcome where
  | response (status : Nat) (body : String)
  | netError
  deriving Repr, DecidableEq

/-- Exceptions around external address detection: the UnknownIPAddress
raised on a non-200 status, the uncaught requests exception on network
failure, and a marker for the click prompt re-asking forever because no
typed answer ever validates. -/
inductive IpErr where
  | unknownIPAddress
  | requestsError
  | uiLoop
  deriving Repr, DecidableEq

/-- Embedding of get_external_ip_from_centralized_source: return the body on
status 200, raise UnknownIPAddress otherwise; a network failure raises the
requests exception out of requests.get itself. -/
def get_external_ip_from_centralized_source :
    HttpOutcome → Except IpErr String
  | .response status body =>
    if status = 200 then .ok body else .error .unknownIPAddress
  | .netError => .error .requestsError

/-- The interactive user: the answer click.confirm would return, and the
successive raw answers typed at click.prompt. -/
structure UiOracle where
  confirmAnswer : Bool
  promptAnswers : List String
  deriving Repr, DecidableEq

/-- Observable outcome of determine_external_ip_address: the returned value
(none models the implicit return None), the emitted messages, and how many
times click.confirm and click.prompt ran. -/
structure IpCallResult where
  result : Except IpErr (Option String)
  messages : List Msg
  confirmCalls : Nat
  promptCalls : Nat
  deriving Repr

/-- Interactive branch of determine_external_ip_address: click.confirm on
the detected host; on rejection, click.prompt typed IPV4_ADDRESS keeps
asking until an answer validates, modelled by find? over the answer stream
(uiLoop marks the prompt never returning because no answer validates). -/
def interactiveConfirm (ipv4Valid : String → Bool) (host : String)
    (ui : UiOracle) : IpCallResult :=
  if ui.confirmAnswer then ⟨.ok (some host), [], 1, 0⟩
  else
    match ui.promptAnswers.find? ipv4Valid with
    | some h => ⟨.ok (some h), [], 1, 1⟩
    | none => ⟨.error .uiLoop, [], 1, 1⟩

/-- Embedding of determine_external_ip_address. The IPV4_ADDRESS click type
is the parameter ipv4Valid. Only UnknownIPAddress is caught, and when force
is false it is swallowed: the function then falls off the end and returns
None. A requests-level network failure is a different exception and always
propagates. -/
def determine_external_ip_address (ipv4Valid : String → Bool)
    (outcome : HttpOutcome) (force : Bool) (ui : UiOracle) : IpCallResult :=
  match get_external_ip_from_centralized_source outcome with
  | .error .unknownIPAddress =>
    if force then ⟨.error .unknownIPAddress, [], 0, 0⟩
    else ⟨.ok none, [], 0, 0⟩
  | .error e => ⟨.error e, [], 0, 0⟩
  | .ok host =>
    if force then ⟨.ok (some host), [.forceDetectWarning host], 0, 0⟩
    else interactiveConfirm ipv4Valid host ui

/-- Filesystem with no static-nodes file anywhere. -/
def fsAbsent : String → FileState := fun _ => .absent

/-- Filesystem whose static-nodes file parses to an empty JSON array. -/
def fsArrayFile : String → FileState := fun _ => .parsed (.jarr [])

/-- Hardcoded teacher table with one domain lynx mapping to one URI. -/
def ttLynx : String → Option (List String) := fun d =>
  if d = "lynx" then some ["t1"] else none

/-- Concrete construction oracle: the URI string a is down, every other
string constructs as itself, non-strings are not staking. -/
def constructW : JValue → Except CErr String := fun u =>
  match u with
  | .jstr s => if s = "a" then .error .down else .ok s
  | _ => .error .notStaking

/-- Concrete IPv4 validator accepting exactly one dotted quad. -/
def ipv4W : String → Bool := fun s => s == "1.2.3.4"

/-! Helper lemmas: the per-domain loop only ever appends to the uris list. -/

theorem hpInit_eq_getD (hp : Option (List JValue)) : hpInit hp = hp.getD [] := by
  cases hp <;> rfl

theorem extendStatic_ok_extends (sn : List (String × JValue)) (uris : List JValue)
    (d : String) (out : List JValue) (h : extendStatic sn uris d = .ok out) :
    uris <+: out := by
  unfold extendStatic at h
  split at h
  · split at h
    · split at h
      · cases h; exact List.prefix_append _ _
      · cases h
    · cases h; exact List.prefix_refl _
  · cases h; exact List.prefix_refl _

theorem extendHardcoded_extends (tt : String → Option (List String))
    (uris : List JValue) (d : String) : uris <+: extendHardcoded tt uris d := by
  unfold extendHardcoded
  split
  · split
    · exact List.prefix_refl _
    · exact List.prefix_append _ _
  · exact List.prefix_refl _

theorem aggStep_ok_extends (sn : List (String × JValue))
    (tt : String → Option (List String)) (uris : List JValue) (d : String)
    (out : List JValue) (h : aggStep sn tt uris d = .ok out) : uris <+: out := by
  unfold aggStep at h
  cases hs : extendStatic sn uris d with
  | ok u => rw [hs] at h; cases h
            exact (extendStatic_ok_extends sn uris d u hs).trans
              (extendHardcoded_extends tt u d)
  | error e => rw [hs] at h; cases h

theorem aggLoop_ok_extends (sn : List (String × JValue))
    (tt : String → Option (List String)) :
    ∀ (ds : List String) (acc out : List JValue),
      aggLoop sn tt ds acc = .ok out → acc <+: out
  | [], acc, out, h => by cases h; exact List.prefix_refl _
  | d :: ds, acc, out, h => by
    unfold aggLoop at h
    cases hs : aggStep sn tt acc d with
    | ok acc2 =>
      rw [hs] at h
      exact (aggStep_ok_extends sn tt acc d acc2 hs).trans
        (aggLoop_ok_extends sn tt ds acc2 out h)
    | error e => rw [hs] at h; cases h

/-- C2: for every domain set, static-file content and highest_priority
sequence, a successful aggregate_seednode_uris result begins with the
elements of highest_priority, verbatim and in order, before any static-file
or hardcoded URI. -/
theorem aggregate_highest_priority_first (fs : String → FileState)
    (tt : String → Option (List String)) (domains : List String)
    (hp : Option (List JValue)) (out : List JValue) (hpA : Option (List JValue))
    (h : aggregate_seednode_uris fs tt domains hp = .ok (out, hpA)) :
    hp.getD [] <+: out := by
  unfold aggregate_seednode_uris at h
  split at h
  · cases h
  · split at h
    · cases h
    · rename_i x1 sn hsn x2 uris hl
      cases h
      rw [← hpInit_eq_getD]
      exact aggLoop_ok_extends sn tt domains (hpInit hp) out hl

/-- C2 witness: a concrete run whose output starts with the caller URI. -/
theorem aggregate_highest_priority_first_witness :
    [JValue.jstr "a"] <+: [JValue.jstr "a", JValue.jstr "t1"] :=
  aggregate_highest_priority_first fsAbsent ttLynx ["lynx"] (some [.jstr "a"])
    [.jstr "a", .jstr "t1"] (some [.jstr "a", .jstr "t1"]) rfl

/-- C3 counterexample: with one domain that has a hardcoded teacher and a
non-empty caller list, the caller list object ends holding the whole result,
not its original contents: the function mutates its argument rather than
building the result from a copy. -/
theorem aggregate_mutates_nonempty_caller_list :
    aggregate_seednode_uris fsAbsent ttLynx ["lynx"] (some [.jstr "a"]) =
      .ok ([.jstr "a", .jstr "t1"], some [.jstr "a", .jstr "t1"]) ∧
    ([JValue.jstr "a", JValue.jstr "t1"] : List JValue) ≠ [JValue.jstr "a"] :=
  ⟨rfl, by simp⟩

/-- C3 amended: aggregate_seednode_uris has no side effects beyond the
static-file read and the mutation of a non-empty highest_priority list: a
None or empty argument is replaced by a fresh list and left unchanged, while
a non-empty caller list is aliased and ends equal to the whole result. -/
theorem aggregate_mutation_spec (fs : String → FileState)
    (tt : String → Option (List String)) (domains : List String)
    (hp : Option (List JValue)) (out : List JValue) (hpA : Option (List JValue))
    (h : aggregate_seednode_uris fs tt domains hp = .ok (out, hpA)) :
    (hp = none → hpA = none) ∧
    (hp = some [] → hpA = some []) ∧
    (∀ l, hp = some l → l ≠ [] → hpA = some out) := by
  unfold aggregate_seednode_uris at h
  split at h
  · cases h
  · split at h
    · cases h
    · cases h
      refine ⟨fun hn => ?_, fun he => ?_, fun l hl2 hne => ?_⟩
      · subst hn; rfl
      · subst he; rfl
      · subst hl2
        cases l with
        | nil => exact absurd rfl hne
        | cons a as => rfl

/-- C3 amended witness: the concrete mutated outcome of the counterexample
run, produced by the amended theorem. -/
theorem aggregate_mutation_spec_witness :
    (some [JValue.jstr "a", JValue.jstr "t1"] : Option (List JValue)) =
      some [JValue.jstr "a", JValue.jstr "t1"] :=
  (aggregate_mutation_spec fsAbsent ttLynx ["lynx"] (some [.jstr "a"])
    [.jstr "a", .jstr "t1"] (some [.jstr "a", .jstr "t1"]) rfl).2.2
    [.jstr "a"] rfl (by simp)

/-- C4: aggregation is deterministic: two calls with an unchanged static
file, unchanged hardcoded table, the same domain set (same iteration order,
which for a given Python set object is fixed within a process) and equal
highest_priority contents produce identical outputs. -/
theorem aggregate_deterministic (fs1 fs2 : String → FileState)
    (tt1 tt2 : String → Option (List String)) (d1 d2 : List String)
    (hp1 hp2 : Option (List JValue)) (hfs : fs1 = fs2) (htt : tt1 = tt2)
    (hd : d1 = d2) (hhp : hp1 = hp2) :
    aggregate_seednode_uris fs1 tt1 d1 hp1 =
      aggregate_seednode_uris fs2 tt2 d2 hp2 := by
  subst hfs; subst htt; subst hd; subst hhp; rfl

/-- C4 witness: determinism at a concrete input. -/
theorem aggregate_deterministic_witness :
    aggregate_seednode_uris fsAbsent ttLynx ["lynx"] none =
      aggregate_seednode_uris fsAbsent ttLynx ["lynx"] none :=
  aggregate_deterministic fsAbsent fsAbsent ttLynx ttLynx ["lynx"] ["lynx"]
    none none rfl rfl rfl rfl

/-- C9: passing an empty list as highest_priority is equivalent to passing
None: the Boolean or coalesces both to a fresh empty list, the returned
sequences coincide for every domain set, and an empty caller list is never
mutated. -/
theorem aggregate_empty_hp_eq_none (fs : String → FileState)
    (tt : String → Option (List String)) (domains : List String) :
    ((aggregate_seednode_uris fs tt domains (some [])).map Prod.fst =
      (aggregate_seednode_uris fs tt domains none).map Prod.fst) ∧
    (∀ out hpA,
      aggregate_seednode_uris fs tt domains (some []) = .ok (out, hpA) →
      hpA = some []) := by
  constructor
  · unfold aggregate_seednode_uris
    have h0 : hpInit (some ([] : List JValue)) = hpInit none := rfl
    rw [h0]
    split
    · rfl
    · split <;> rfl
  · intro out hpA h
    unfold aggregate_seednode_uris at h
    split at h
    · cases h
    · split at h
      · cases h
      · cases h; rfl

/-- C9 witness: the empty caller list is returned unchanged on a concrete
run. -/
theorem aggregate_empty_hp_eq_none_witness :
    (some [] : Option (List JValue)) = some [] :=
  (aggregate_empty_hp_eq_none fsAbsent ttLynx ["lynx"]).2
    [.jstr "t1"] (some []) rfl

/-- C8: when the static-node file does not exist at the resolved path,
load_static_nodes returns an empty mapping and raises nothing, for every
requested domain set and path argument. -/
theorem load_static_nodes_absent_empty (fs : String → FileState)
    (domains : List String) (filepath : Option String)
    (habs : fs (resolveFilepath filepath) = .absent) :
    load_static_nodes fs domains filepath = .ok [] := by
  unfold load_static_nodes
  rw [habs]

/-- C8 witness: a concrete absent file with an explicit path argument. -/
theorem load_static_nodes_absent_empty_witness :
    load_static_nodes fsAbsent ["lynx"] (some "p") = .ok [] :=
  load_static_nodes_absent_empty fsAbsent ["lynx"] (some "p") rfl

/-- C5 counterexample: a static-node file holding a valid JSON array makes
load_static_nodes raise AttributeError (items called on a list), which is a
different exception from the invalid-JSON configuration error the claim
announces. -/
theorem load_static_nodes_array_not_config_error :
    load_static_nodes fsArrayFile ["lynx"] none = .error .attributeError ∧
    PyError.attributeError ≠ PyError.invalidJson :=
  ⟨rfl, by decide⟩

/-- C5 amended: when the file exists and parses to a top-level value that is
not a mapping, load_static_nodes fails, for every domain set and path, with
the unhandled AttributeError from calling items on that value, not with the
invalid-JSON configuration error (which only JSON parse failures raise). -/
theorem load_static_nodes_non_mapping (fs : String → FileState)
    (domains : List String) (filepath : Option String) (v : JValue)
    (hfile : fs (resolveFilepath filepath) = .parsed v)
    (hobj : ∀ kvs, v ≠ .jobj kvs) :
    load_static_nodes fs domains filepath = .error .attributeError := by
  unfold load_static_nodes
  rw [hfile]
  cases v with
  | jobj kvs => exact absurd rfl (hobj kvs)
  | jnull => rfl
  | jbool b => rfl
  | jnum n => rfl
  | jstr s => rfl
  | jarr xs => rfl

/-- C5 amended witness: the array file from the counterexample. -/
theorem load_static_nodes_non_mapping_witness :
    load_static_nodes fsArrayFile ["lynx"] none = .error .attributeError :=
  load_static_nodes_non_mapping fsArrayFile ["lynx"] none (.jarr []) rfl
    (fun _ h => JValue.noConfusion h)

/-! Helper lemmas about the construction loop of load_seednodes. -/

theorem buildTeachers_no_fatal {Node : Type} (construct : JValue → Except CErr Node) :
    ∀ uris : List JValue,
      (∀ u ∈ uris, isFatalConstruct (construct u) = false) →
      buildTeachers construct uris =
        .ok (constructSuccesses construct uris, skipNotices construct uris)
  | [], _ => rfl
  | u :: rest, h => by
    have hu : isFatalConstruct (construct u) = false :=
      h u (List.mem_cons_self u rest)
    have hrest := buildTeachers_no_fatal construct rest
      (fun v hv => h v (List.mem_cons_of_mem u hv))
    cases hc : construct u with
    | ok n =>
      simp [buildTeachers, hc, hrest, constructSuccesses, skipNotices,
        List.filterMap_cons, Except.toOption]
    | error ce =>
      cases ce with
      | down =>
        simp [buildTeachers, hc, hrest, constructSuccesses, skipNotices,
          List.filterMap_cons, Except.toOption]
      | notStaking =>
        simp [buildTeachers, hc, hrest, constructSuccesses, skipNotices,
          List.filterMap_cons, Except.toOption]
      | other e => rw [hc] at hu; simp [isFatalConstruct] at hu

theorem buildTeachers_fatal {Node : Type} (construct : JValue → Except CErr Node) :
    ∀ (pre : List JValue) (u : JValue) (rest : List JValue) (e : Nat),
      (∀ v ∈ pre, isFatalConstruct (construct v) = false) →
      construct u = .error (.other e) →
      buildTeachers construct (pre ++ u :: rest) = .error e
  | [], u, rest, e, _, hu => by
    simp [buildTeachers, hu]
  | v :: pre, u, rest, e, hpre, hu => by
    have hv : isFatalConstruct (construct v) = false :=
      hpre v (List.mem_cons_self v pre)
    have ih := buildTeachers_fatal construct pre u rest e
      (fun w hw => hpre w (List.mem_cons_of_mem v hw)) hu
    cases hc : construct v with
    | ok n => simp [buildTeachers, hc, ih]
    | error ce =>
      cases ce with
      | down => simp [buildTeachers, hc, ih]
      | notStaking => simp [buildTeachers, hc, ih]
      | other e2 => rw [hc] at hv; simp [isFatalConstruct] at hv

/-- C1: given the aggregated URI list, load_seednodes returns the
successfully constructed teachers in the same relative order as their URIs;
a URI failing with NodeSeemsToBeDown or Teacher.NotStaking is skipped with a
per-URI notice and processing continues, while any other construction
failure propagates unhandled to the caller. -/
theorem load_seednodes_order_and_skip {Node : Type} (fs : String → FileState)
    (tt : String → Option (List String)) (domains : List String)
    (teacher_uris : Option (List JValue))
    (construct : JValue → Except CErr Node) (uris : List JValue)
    (hpA : Option (List JValue))
    (hagg : aggregate_seednode_uris fs tt domains teacher_uris =
      .ok (uris, hpA)) :
    ((∀ u ∈ uris, isFatalConstruct (construct u) = false) →
      load_seednodes fs tt domains teacher_uris construct =
        .ok (constructSuccesses construct uris,
          .connecting :: skipNotices construct uris ++
            (if (constructSuccesses construct uris).isEmpty then
              [.noDomainPeers domains] else []))) ∧
    (∀ pre u rest e, uris = pre ++ u :: rest →
      (∀ v ∈ pre, isFatalConstruct (construct v) = false) →
      construct u = .error (.other e) →
      load_seednodes fs tt domains teacher_uris construct =
        .error (.construct e)) := by
  constructor
  · intro hnf
    cases uris with
    | nil =>
      simp only [load_seednodes, hagg]
      rfl
    | cons a as =>
      simp only [load_seednodes, hagg]
      rw [buildTeachers_no_fatal construct (a :: as) hnf]
      rfl
  · intro pre u rest e hsplit hpre hu
    subst hsplit
    have hne : (pre ++ u :: rest).isEmpty = false := by
      cases pre <;> rfl
    simp only [load_seednodes, hagg]
    rw [hne, buildTeachers_fatal construct pre u rest e hpre hu]
    rfl

/-- C1 witness: one URI down (skipped with a notice) and one constructed, in
order. -/
theorem load_seednodes_order_and_skip_witness :
    load_seednodes fsAbsent ttLynx ["lynx"] (some [.jstr "a"]) constructW =
      .ok (["t1"], [.connecting, .failedConnect (.jstr "a")]) :=
  (load_seednodes_order_and_skip fsAbsent ttLynx ["lynx"] (some [.jstr "a"])
    constructW [.jstr "a", .jstr "t1"] (some [.jstr "a", .jstr "t1"])
    rfl).1 (by decide)

/-- C6 evidence: when the echo service answers with a non-200 status and
force is false, determine_external_ip_address swallows UnknownIPAddress,
falls off the end of the function, and completes normally returning None
(no value, no exception, no prompt), instead of surfacing the failure. -/
theorem determine_ip_not_forced_swallows_failure :
    determine_external_ip_address ipv4W (.response 500 "oops") false
      ⟨true, []⟩ = ⟨.ok none, [], 0, 0⟩ := rfl

/-- C7: with force true, a 200 response makes determine_external_ip_address
return the body exactly, emit the force-detect warning, and invoke neither
click.confirm nor click.prompt; any non-200 status makes it fail with the
unknown-address error. -/
theorem determine_ip_forced_paths (ipv4Valid : String → Bool) (body : String)
    (ui : UiOracle) (status : Nat) (hstatus : status ≠ 200) :
    (determine_external_ip_address ipv4Valid (.response 200 body) true ui =
      ⟨.ok (some body), [.forceDetectWarning body], 0, 0⟩) ∧
    (determine_external_ip_address ipv4Valid (.response status body) true ui =
      ⟨.error .unknownIPAddress, [], 0, 0⟩) := by
  refine ⟨rfl, ?_⟩
  simp only [determine_external_ip_address,
    get_external_ip_from_centralized_source]
  rw [if_neg hstatus]
  rfl

/-- C7 witness: concrete 200 and 500 responses under force. -/
theorem determine_ip_forced_paths_witness :
    (determine_external_ip_address ipv4W (.response 200 "not.an.ip") true
      ⟨true, []⟩ =
      ⟨.ok (some "not.an.ip"), [.forceDetectWarning "not.an.ip"], 0, 0⟩) ∧
    (determine_external_ip_address ipv4W (.response 500 "not.an.ip") true
      ⟨true, []⟩ = ⟨.error .unknownIPAddress, [], 0, 0⟩) :=
  determine_ip_forced_paths ipv4W "not.an.ip" ⟨true, []⟩ 500 (by decide)

theorem interactiveConfirm_yes (ipv4Valid : String → Bool) (host : String)
    (ui : UiOracle) (hc : ui.confirmAnswer = true) :
    interactiveConfirm ipv4Valid host ui = ⟨.ok (some host), [], 1, 0⟩ := by
  unfold interactiveConfirm
  rw [hc]
  rfl

theorem interactiveConfirm_ok_valid (ipv4Valid : String → Bool)
    (host : String) (ui : UiOracle) (h : String)
    (hc : ui.confirmAnswer = false)
    (hres : (interactiveConfirm ipv4Valid host ui).result = .ok (some h)) :
    ipv4Valid h = true := by
  unfold interactiveConfirm at hres
  split at hres
  · rename_i hc2
    rw [hc] at hc2
    cases hc2
  · split at hres
    · rename_i h2 hf
      simp only at hres
      cases hres
      exact List.find?_some hf
    · simp only at hres
      cases hres

/-- C10: the auto-detected address is never checked against IPv4 syntax:
whatever body a 200 response carries is returned verbatim under force, and
likewise under interactive confirmation; only a replacement typed at the
prompt after rejection is constrained to satisfy the IPV4_ADDRESS type. -/
theorem determine_ip_detected_body_not_validated (ipv4Valid : String → Bool)
    (body : String) (ui : UiOracle) :
    ((determine_external_ip_address ipv4Valid (.response 200 body) true
      ui).result = .ok (some body)) ∧
    (ui.confirmAnswer = true →
      (determine_external_ip_address ipv4Valid (.response 200 body) false
        ui).result = .ok (some body)) ∧
    (∀ h, ui.confirmAnswer = false →
      (determine_external_ip_address ipv4Valid (.response 200 body) false
        ui).result = .ok (some h) →
      ipv4Valid h = true) := by
  refine ⟨rfl, fun hc => ?_, fun h hc hres => ?_⟩
  · have he : determine_external_ip_address ipv4Valid (.response 200 body)
        false ui = interactiveConfirm ipv4Valid body ui := rfl
    rw [he, interactiveConfirm_yes ipv4Valid body ui hc]
  · have hres2 : (interactiveConfirm ipv4Valid body ui).result =
        .ok (some h) := hres
    exact interactiveConfirm_ok_valid ipv4Valid body ui h hc hres2

/-- C10 witness: a clearly non-IPv4 body accepted verbatim, and the prompt
answer from the rejection path validating under the concrete IPv4 type. -/
theorem determine_ip_detected_body_not_validated_witness :
    ((determine_external_ip_address ipv4W (.response 200 "not.an.ip") false
      ⟨true, []⟩).result = .ok (some "not.an.ip")) ∧
    ipv4W "1.2.3.4" = true :=
  ⟨(determine_ip_detected_body_not_validated ipv4W "not.an.ip"
      ⟨true, []⟩).2.1 rfl,
   (determine_ip_detected_body_not_validated ipv4W "x"
      ⟨false, ["nope", "1.2.3.4"]⟩).2.2 "1.2.3.4" rfl rfl⟩

end NucypherNetwork
